import Mathlib

/-! FluxState simulation engine — a shallow embedding.

Shallow embedding of the FluxState power/thermal simulation engine
(the "comprehensive" implementation: `src/src/scripts/thermal.js`,
`src/src/scripts/state.js` (state + power + simulation modules) and
`src/src/scripts/warnings.js`), with theorems checking the
natural-language specification against it.

Modelling conventions:
* JS numbers are modelled as `ℚ`; all arithmetic used by the claims is
  field arithmetic, `min`/`max` and comparisons.
* `Math.pow` with fractional exponents and `Math.log2` are transcendental
  primitives with no exact rational meaning; they are abstracted as a
  `MathPrims` record of uninterpreted functions.  Every theorem below is
  proved for all interpretations of these primitives.
* A JS falsy-fallback read `x || d` on a numeric field is `jsOr x d`
  (`d` when `x = 0`, else `x`); a missing object is `Option.none`.
* Display-only string fields (`explanation`, warning messages, clock-mode
  labels) and the `Math.random` jitter on display clock speeds are not
  modelled; no claim refers to them.
-/

namespace FluxState

/-- JS `x || d` for a numeric field: `0` (falsy) falls back to `d`. -/
def jsOr (x d : ℚ) : ℚ := if x = 0 then d else x

/-- Abstract transcendental primitives (`Math.pow` with fractional
exponent, `Math.log2`). -/
structure MathPrims where
  rpow : ℚ → ℚ → ℚ
  log2 : ℚ → ℚ

/-! ## Thermal module (`src/src/scripts/thermal.js`) -/

/-- Source `THERMAL_CONSTANTS.CPU_PACKAGE_MASS` -/
def CPU_PACKAGE_MASS : ℚ := 3/100

/-- Source `THERMAL_CONSTANTS.MIN_FAN_SPEED` -/
def MIN_FAN_SPEED : ℚ := 20

/-- Source `THERMAL_CONSTANTS.CASE_THERMAL_MASS` -/
def CASE_THERMAL_MASS : ℚ := 500

/-- Source `THERMAL_CONSTANTS.APPROACH_RATE` -/
def APPROACH_RATE : ℚ := 1/20

/-- Cooler hardware record (fields used by the thermal engine). -/
structure Cooling where
  heatDissipation : ℚ
  thermalMass : ℚ
  responseTime : ℚ
  airflowEffectiveness : ℚ
  noiseBaseline : ℚ
  noiseMax : ℚ
  maxRecommendedTdp : ℚ
  deriving DecidableEq

/-- Source `ThermalState` record (numeric fields; the `explanation` string is
display-only and not modelled). -/
structure ThermalState where
  cpuTemp : ℚ
  gpuTemp : ℚ
  caseTemp : ℚ
  coolantTemp : ℚ
  ambientTemp : ℚ
  throttlePercent : ℚ
  isThrottling : Bool
  fanSpeed : ℚ
  noiseLevel : ℚ
  heatGenerated : ℚ
  heatDissipated : ℚ
  equilibriumTemp : ℚ
  coolingCapacity : ℚ
  thermalHeadroom : ℚ
  timeToEquilibrium : ℚ
  deriving DecidableEq

/-- Source `createThermalState(ambientTemp = 25)` -/
def createThermalState (ambientTemp : ℚ) : ThermalState where
  cpuTemp := ambientTemp
  gpuTemp := ambientTemp
  caseTemp := ambientTemp + 2
  coolantTemp := ambientTemp
  ambientTemp := ambientTemp
  throttlePercent := 0
  isThrottling := false
  fanSpeed := MIN_FAN_SPEED
  noiseLevel := 20
  heatGenerated := 0
  heatDissipated := 0
  equilibriumTemp := ambientTemp
  coolingCapacity := 100
  thermalHeadroom := 100
  timeToEquilibrium := 0

/-- Result of `calculateHeatGenerated`. -/
structure HeatBreakdown where
  total : ℚ
  cpu : ℚ
  gpu : ℚ
  memory : ℚ
  storage : ℚ
  psu : ℚ
  system : ℚ

/-- Source `calculateHeatGenerated(params)` -/
def calculateHeatGenerated (cpuPower gpuPower memoryHeat psuHeatWaste storageHeat : ℚ) :
    HeatBreakdown :=
  let cpuHeat := cpuPower
  let gpuHeat := gpuPower
  let memHeat := memoryHeat * 40
  let storeHeat := storageHeat * 30
  { total := cpuHeat + gpuHeat + memHeat + psuHeatWaste + storeHeat
    cpu := cpuHeat
    gpu := gpuHeat
    memory := memHeat
    storage := storeHeat
    psu := psuHeatWaste
    system := memHeat + psuHeatWaste + storeHeat }

/-- Result of `calculateCoolingCapacity` (`breakdown` omitted; for the
null-cooling branch the JS object has no `baseCapacity`, modelled as 0). -/
structure CoolingCapacityResult where
  capacity : ℚ
  baseCapacity : ℚ
  effectiveness : ℚ

/-- Source `calculateCoolingCapacity(cooling, fanCount, fanSpeed, airflowQuality, caseTemp)` -/
def calculateCoolingCapacity (prims : MathPrims) (cooling : Option Cooling)
    (fanCount fanSpeed airflowQuality caseTemp : ℚ) : CoolingCapacityResult :=
  match cooling with
  | none => { capacity := 100, baseCapacity := 0, effectiveness := 1/2 }
  | some c =>
    let baseCapacity := c.heatDissipation
    let fanRatio := fanSpeed / 100
    let fanEfficiency := 15/100 + 85/100 * prims.rpow fanRatio (11/10)
    let airflowPenalty := 1/2 + airflowQuality * (1/2)
    let fanBonus := 1 + prims.log2 (max 1 fanCount) * (6/100)
    let caseTempPenalty := if caseTemp > 35 then 1 - (caseTemp - 35) * (15/1000) else 1
    let coolerEffectiveness := jsOr c.airflowEffectiveness (8/10)
    let effectiveness :=
      fanEfficiency * airflowPenalty * fanBonus * caseTempPenalty * coolerEffectiveness
    { capacity := max 50 (baseCapacity * effectiveness)
      baseCapacity := baseCapacity
      effectiveness := effectiveness }

/-- Source `calculateEquilibriumTemp(cpuHeat, cooling, fanCount, fanSpeed, airflowQuality,
ambientTemp, caseTemp)` -/
def calculateEquilibriumTemp (prims : MathPrims) (cpuHeat : ℚ) (cooling : Option Cooling)
    (fanCount fanSpeed airflowQuality ambientTemp caseTemp : ℚ) : ℚ :=
  match cooling with
  | none => ambientTemp
  | some _ =>
    if cpuHeat ≤ 0 then ambientTemp
    else
      let coolingData :=
        calculateCoolingCapacity prims cooling fanCount fanSpeed airflowQuality caseTemp
      let conductivity := coolingData.capacity / 60
      let requiredDelta := cpuHeat / conductivity
      let caseTempOffset := max 0 ((caseTemp - ambientTemp) * (3/10))
      ambientTemp + requiredDelta + caseTempOffset

/-- Source `calculateTimeToEquilibrium(currentTemp, equilibriumTemp, thermalMass)` -/
def calculateTimeToEquilibrium (currentTemp equilibriumTemp thermalMass : ℚ) : ℚ :=
  let delta := |equilibriumTemp - currentTemp|
  if delta < 1 then 0
  else
    let timeConstant := thermalMass * 200
    timeConstant * 3

/-- Source `calculateFanSpeed(currentTemp, maxSafeTemp, ambientTemp, cooling)`
(the `cooling` argument is unused by the source body). -/
def calculateFanSpeed (prims : MathPrims) (currentTemp maxSafeTemp ambientTemp : ℚ)
    (_cooling : Option Cooling) : ℚ :=
  let idleTemp := ambientTemp + 12
  let loadTemp := maxSafeTemp - 8
  if currentTemp ≤ idleTemp then MIN_FAN_SPEED
  else if currentTemp ≥ maxSafeTemp then 100
  else if currentTemp ≥ loadTemp then
    let overshoot := (currentTemp - loadTemp) / (maxSafeTemp - loadTemp)
    85 + overshoot * 15
  else
    let range := loadTemp - idleTemp
    let position := (currentTemp - idleTemp) / range
    let curve := prims.rpow position (13/10)
    MIN_FAN_SPEED + curve * (85 - MIN_FAN_SPEED)

/-- Source `calculateNoise(cooling, fanSpeed, fanCount)` -/
def calculateNoise (prims : MathPrims) (cooling : Option Cooling) (fanSpeed fanCount : ℚ) : ℚ :=
  match cooling with
  | none => 30
  | some c =>
    let speedRatio := fanSpeed / 100
    let coolerNoise :=
      c.noiseBaseline + (c.noiseMax - c.noiseBaseline) * prims.rpow speedRatio (9/5)
    let fanAdder := 2 * prims.log2 (max 1 fanCount)
    coolerNoise + fanAdder

/-- The throttling step of `updateThermalState` (thermal.js lines 258-272),
as a function of the already-updated CPU temperature, the effective throttle
threshold and the previous throttle percent. -/
def updateThrottle (newCpuTemp effectiveThrottleTemp prevThrottle : ℚ) : ℚ :=
  if newCpuTemp > effectiveThrottleTemp then
    let over := newCpuTemp - effectiveThrottleTemp
    let targetThrottle := min 95 (over * 4)
    prevThrottle + (targetThrottle - prevThrottle) * (15/100)
  else if newCpuTemp < effectiveThrottleTemp - 3 ∧ prevThrottle > 0 then
    let decayed := prevThrottle * (92/100)
    if decayed < 1/2 then 0 else decayed
  else prevThrottle

/-- Parameter record of `updateThermalState`. -/
structure ThermalParams where
  cpuPower : ℚ
  gpuPower : ℚ
  memoryHeat : ℚ
  psuHeatWaste : ℚ
  storageHeat : ℚ
  cooling : Option Cooling
  fanCount : ℚ
  maxCpuTemp : ℚ
  throttleTemp : ℚ
  airflowQuality : ℚ
  deltaTime : ℚ

/-- Source `updateThermalState(state, params)` -/
def updateThermalState (prims : MathPrims) (state : ThermalState) (p : ThermalParams) :
    ThermalState :=
  let ambientTemp := state.ambientTemp
  let heat :=
    calculateHeatGenerated p.cpuPower p.gpuPower p.memoryHeat p.psuHeatWaste p.storageHeat
  let targetFanSpeed := calculateFanSpeed prims state.cpuTemp p.maxCpuTemp ambientTemp p.cooling
  let fanResponseRate := 8/100 * p.deltaTime * 10
  let fanSpeed := state.fanSpeed + (targetFanSpeed - state.fanSpeed) * fanResponseRate
  let coolingData :=
    calculateCoolingCapacity prims p.cooling p.fanCount fanSpeed p.airflowQuality state.caseTemp
  let equilibriumTemp :=
    calculateEquilibriumTemp prims heat.cpu p.cooling p.fanCount fanSpeed p.airflowQuality
      ambientTemp state.caseTemp
  let coolerMass := match p.cooling with | some c => c.thermalMass | none => 1/10
  let responseTime := match p.cooling with | some c => jsOr c.responseTime 2 | none => 1
  let totalThermalMass := CPU_PACKAGE_MASS + coolerMass
  let tempDiff := equilibriumTemp - state.cpuTemp
  let approachRate := APPROACH_RATE / (totalThermalMass * responseTime)
  let tempChange := tempDiff * approachRate * p.deltaTime
  let newCpuTemp := max ambientTemp (state.cpuTemp + tempChange)
  let currentDelta := newCpuTemp - ambientTemp
  let conductivity := coolingData.capacity / 60
  let heatDissipated := conductivity * currentDelta
  let effectiveThrottleTemp := jsOr p.throttleTemp (p.maxCpuTemp - 5)
  let newThrottlePercent := updateThrottle newCpuTemp effectiveThrottleTemp state.throttlePercent
  let internalHeat := heat.system + (heat.cpu + heat.gpu) * (15/100)
  let caseExhaustRate := p.fanCount * 12 * p.airflowQuality
  let caseCooling := caseExhaustRate * (state.caseTemp - ambientTemp)
  let caseNetHeat := internalHeat - caseCooling
  let newCaseTemp := state.caseTemp + (caseNetHeat / CASE_THERMAL_MASS) * p.deltaTime
  let timeToEq := calculateTimeToEquilibrium newCpuTemp equilibriumTemp totalThermalMass
  let thermalHeadroom := max 0 (p.maxCpuTemp - equilibriumTemp)
  { state with
    cpuTemp := newCpuTemp
    gpuTemp := ambientTemp + p.gpuPower / 4
    caseTemp := max ambientTemp (min newCaseTemp (ambientTemp + 25))
    fanSpeed := fanSpeed
    throttlePercent := newThrottlePercent
    isThrottling := decide (newThrottlePercent > 0)
    heatGenerated := heat.cpu
    heatDissipated := heatDissipated
    equilibriumTemp := equilibriumTemp
    coolingCapacity := coolingData.capacity
    thermalHeadroom := thermalHeadroom
    timeToEquilibrium := timeToEq
    noiseLevel := calculateNoise prims p.cooling fanSpeed p.fanCount }

/-- Source `setAmbientTemp(state, temp)` -/
def setAmbientTemp (state : ThermalState) (temp : ℚ) : ThermalState :=
  { state with ambientTemp := temp }

/-! ## Power module (power-calculation part of `src/src/scripts/state.js`) -/

/-- The closed set of workload identifiers (`WORKLOAD_PROFILES` keys). -/
inductive Workload
  | idle | lightLoad | gaming | streaming | rendering | compiling | stress
  deriving DecidableEq

/-- CPU/GPU load types used in the workload profiles. -/
inductive LoadType
  | idle | light | gaming | rendering | stress
  deriving DecidableEq

/-- Source `WORKLOAD_PROFILES[w].cpuLoadType` -/
def Workload.cpuLoadType : Workload → LoadType
  | .idle => .idle
  | .lightLoad => .light
  | .gaming => .gaming
  | .streaming => .rendering
  | .rendering => .rendering
  | .compiling => .rendering
  | .stress => .stress

/-- Source `WORKLOAD_PROFILES[w].gpuLoadType` -/
def Workload.gpuLoadType : Workload → LoadType
  | .idle => .idle
  | .lightLoad => .idle
  | .gaming => .gaming
  | .streaming => .gaming
  | .rendering => .rendering
  | .compiling => .idle
  | .stress => .stress

/-- Source `WORKLOAD_PROFILES[w].memoryActivity` -/
def Workload.memoryActivity : Workload → ℚ
  | .idle => 1/10
  | .lightLoad => 1/4
  | .gaming => 55/100
  | .streaming => 7/10
  | .rendering => 85/100
  | .compiling => 3/4
  | .stress => 95/100

/-- Source `WORKLOAD_PROFILES[w].storageActivity` -/
def Workload.storageActivity : Workload → ℚ
  | .idle => 1/20
  | .lightLoad => 15/100
  | .gaming => 3/10
  | .streaming => 4/10
  | .rendering => 6/10
  | .compiling => 85/100
  | .stress => 1/2

/-- Memory generation tag. -/
inductive MemType
  | ddr3 | ddr4 | ddr5
  deriving DecidableEq

/-- CPU hardware record (power/boost/thermal fields used by the engine;
clock fields are display-only and not modelled). -/
structure Cpu where
  idlePower : ℚ
  lightLoadPower : ℚ
  gamingPower : ℚ
  renderingPower : ℚ
  stressPower : ℚ
  shortBoostPower : ℚ
  shortBoostDuration : ℚ
  maxSafeTemp : ℚ
  throttleTemp : ℚ
  supportedMemory : List MemType
  deriving DecidableEq

/-- GPU hardware record. -/
structure Gpu where
  idleDraw : ℚ
  lightLoadDraw : ℚ
  gamingDraw : ℚ
  renderingDraw : ℚ
  stressDraw : ℚ
  transientMultiplier : ℚ
  deriving DecidableEq

/-- Memory hardware record. -/
structure Memory where
  memType : MemType
  idlePower : ℚ
  loadPower : ℚ
  heatContribution : ℚ
  sticks : ℚ
  deriving DecidableEq

/-- PSU hardware record; the efficiency curve is the list of
(load-percent, efficiency) pairs in the sorted key order produced by the
source's `Object.keys(curve).map(Number).sort((a, b) => a - b)`. -/
structure Psu where
  wattage : ℚ
  efficiency : List (ℚ × ℚ)
  transientResponse : ℚ
  deriving DecidableEq

/-- Source `BoostState` record. -/
structure BoostState where
  currentPower : ℚ
  boostTimeRemaining : ℚ
  boostActive : Bool
  deriving DecidableEq

/-- Result of `calculateCpuPower` (power fields; display clock fields are
randomised in the source and not modelled). -/
structure CpuPowerResult where
  current : ℚ
  target : ℚ
  isBoost : Bool
  deriving DecidableEq

/-- The target-power/boost selection switch of `calculateCpuPower`
(state.js power module, the `switch (loadType)` block). -/
def cpuTargetPower (cpu : Cpu) (w : Workload) (b : BoostState) : ℚ × Bool :=
  match w.cpuLoadType with
  | .idle => (cpu.idlePower, false)
  | .light => (jsOr cpu.lightLoadPower ((cpu.idlePower + cpu.gamingPower) / 2), false)
  | .gaming => (cpu.gamingPower, false)
  | .rendering =>
    if b.boostTimeRemaining > 0 ∧ cpu.shortBoostDuration > 0 then (cpu.shortBoostPower, true)
    else (cpu.renderingPower, false)
  | .stress =>
    if b.boostTimeRemaining > 0 ∧ cpu.shortBoostDuration > 0 then (cpu.shortBoostPower, true)
    else (cpu.stressPower, false)

/-- Source `calculateCpuPower(cpu, workload, boostState, throttlePercent)` -/
def calculateCpuPower (cpu : Option Cpu) (w : Workload) (b : BoostState)
    (throttlePercent : ℚ) : CpuPowerResult :=
  match cpu with
  | none => { current := 0, target := 0, isBoost := false }
  | some cpu =>
    let sel := cpuTargetPower cpu w b
    let targetPower :=
      if throttlePercent > 0 then sel.1 * (1 - throttlePercent / 100) else sel.1
    let current := jsOr b.currentPower targetPower
    let transitionRate : ℚ := 15/100
    let newPower := current + (targetPower - current) * transitionRate
    { current := max cpu.idlePower newPower, target := targetPower, isBoost := sel.2 }

/-- Result of `calculateGpuPower` (power fields only). -/
structure GpuPowerResult where
  sustained : ℚ
  transient : ℚ
  deriving DecidableEq

/-- The base-power selection switch of `calculateGpuPower`. -/
def gpuBasePower (gpu : Gpu) (w : Workload) : ℚ :=
  match w.gpuLoadType with
  | .idle => gpu.idleDraw
  | .light => jsOr gpu.lightLoadDraw (gpu.idleDraw * 3)
  | .gaming => gpu.gamingDraw
  | .rendering => gpu.renderingDraw
  | .stress => gpu.stressDraw

/-- Source `calculateGpuPower(gpu, workload, ambientTemp, throttlePercent)` -/
def calculateGpuPower (gpu : Option Gpu) (w : Workload) (ambientTemp throttlePercent : ℚ) :
    GpuPowerResult :=
  match gpu with
  | none => { sustained := 0, transient := 0 }
  | some g =>
    let basePower := gpuBasePower g w
    let leakageScalar := 1 + max 0 ((ambientTemp - 25) * (3/1000))
    let adjusted0 := basePower * leakageScalar
    let adjustedPower :=
      if throttlePercent > 0 then adjusted0 * (1 - throttlePercent / 100 * (4/10)) else adjusted0
    let transientPeak :=
      if w.gpuLoadType ≠ .idle then adjustedPower * g.transientMultiplier else adjustedPower
    { sustained := max g.idleDraw adjustedPower, transient := transientPeak }

/-- Result of `calculateMemoryPower`. -/
structure MemoryPowerResult where
  power : ℚ
  heat : ℚ
  deriving DecidableEq

/-- Source `calculateMemoryPower(memory, workload)` (the `genEfficiency` table is
computed by the source but feeds only the display breakdown). -/
def calculateMemoryPower (memory : Option Memory) (w : Workload) : MemoryPowerResult :=
  match memory with
  | none => { power := 5, heat := 2/100 }
  | some m =>
    let activity := w.memoryActivity
    let basePower := m.idlePower + (m.loadPower - m.idlePower) * activity
    let adjustedPower :=
      match m.memType with
      | .ddr3 => basePower * (13/10)
      | .ddr5 => basePower * 1
      | _ => basePower
    let heat := m.heatContribution * activity * (m.sticks / 2)
    { power := adjustedPower, heat := heat }

/-- Source `calculatePsuLoad(power, psu)` -/
def calculatePsuLoad (power : ℚ) (psu : Option Psu) : ℚ :=
  match psu with
  | none => 0
  | some p => power / p.wattage * 100

/-- The bracketing-interval search loop of `getPsuEfficiency`
(`for (let i = 0; i < points.length - 1; i++) ...`, fallback `0.85`). -/
def interpSearch (load : ℚ) : List (ℚ × ℚ) → ℚ
  | p :: q :: rest =>
    if p.1 ≤ load ∧ load ≤ q.1 then
      p.2 + (q.2 - p.2) * ((load - p.1) / (q.1 - p.1))
    else interpSearch load (q :: rest)
  | _ => 85/100

/-- Source `getPsuEfficiency(loadPercent, psu)` (on an empty curve the JS
comparisons against `undefined` are false and the fallback `0.85` is hit). -/
def getPsuEfficiency (load : ℚ) (psu : Option Psu) : ℚ :=
  match psu with
  | none => 85/100
  | some p =>
    match p.efficiency with
    | [] => 85/100
    | first :: rest =>
      if load ≤ first.1 then first.2
      else if ((first :: rest).getLastD first).1 ≤ load then ((first :: rest).getLastD first).2
      else interpSearch load (first :: rest)

/-- Result of `calculateWallPower` (in the null-PSU branch the JS object
carries no `transientWarning`/`transientLimit` fields; they are modelled
as `false`/`0`). -/
structure PsuResult where
  wallPower : ℚ
  efficiency : ℚ
  heatWaste : ℚ
  loadPercent : ℚ
  transientLoad : ℚ
  transientStable : Bool
  transientWarning : Bool
  transientLimit : ℚ
  deriving DecidableEq

/-- Source `calculateWallPower(systemPower, transientPower, psu)` -/
def calculateWallPower (systemPower transientPower : ℚ) (psu : Option Psu) : PsuResult :=
  match psu with
  | none =>
    { wallPower := systemPower
      efficiency := 85/100
      heatWaste := systemPower * (15/100)
      loadPercent := 0
      transientLoad := 0
      transientStable := true
      transientWarning := false
      transientLimit := 0 }
  | some p =>
    let loadPercent := calculatePsuLoad systemPower psu
    let transientLoad := calculatePsuLoad transientPower psu
    let efficiency := getPsuEfficiency loadPercent psu
    let wallPower := systemPower / efficiency
    let heatWaste := wallPower - systemPower
    let transientResponse := jsOr p.transientResponse (8/10)
    let transientLimit := 100 + (transientResponse - 7/10) * 80
    { wallPower := wallPower
      efficiency := efficiency
      heatWaste := heatWaste
      loadPercent := loadPercent
      transientLoad := transientLoad
      transientStable := decide (transientLoad < transientLimit)
      transientWarning := decide (transientLoad > transientLimit * (85/100))
      transientLimit := transientLimit }

/-- Source `applyThrottling(power, throttlePercent)` -/
def applyThrottling (power throttlePercent : ℚ) : ℚ :=
  power * (1 - throttlePercent / 100)

/-! ## Store / history (`src/src/scripts/state.js`, store part) -/

/-- Source `MAX_HISTORY` -/
def MAX_HISTORY : ℕ := 300

/-- One history sample `{ value, time }`. -/
structure HistEntry where
  value : ℚ
  time : ℚ
  deriving DecidableEq

/-- The slice of the simulator store the history/scrubbing operations read
and write (`historyIndex`, `isPaused`, the two history buffers,
`simulatedTime`). -/
structure StoreState where
  historyIndex : ℤ
  isPaused : Bool
  powerHistory : List HistEntry
  tempHistory : List HistEntry
  simulatedTime : ℚ
  deriving DecidableEq

/-- Source `setHistoryIndex(store, index)` -/
def setHistoryIndex (s : StoreState) (index : ℤ) : StoreState :=
  if 0 ≤ index ∧ index < s.powerHistory.length then
    { s with historyIndex := index, isPaused := true }
  else
    { s with historyIndex := -1 }

/-- The trim step of `addPowerHistory`: `if (h.length > MAX_HISTORY) h.shift()`. -/
def trimHistory (l : List HistEntry) : List HistEntry :=
  if l.length > MAX_HISTORY then l.tail else l

/-- Source `addPowerHistory(store, power, temp)` -/
def addPowerHistory (s : StoreState) (power temp : ℚ) : StoreState :=
  let newPowerHistory := s.powerHistory ++ [{ value := power, time := s.simulatedTime }]
  let newTempHistory := s.tempHistory ++ [{ value := temp, time := s.simulatedTime }]
  { s with
    powerHistory := trimHistory newPowerHistory
    tempHistory := trimHistory newTempHistory }

/-! ## Boost state machine (`calculateSimulationState`, simulation module) -/

/-- The high-load workload test of `calculateSimulationState`
(`['rendering', 'stress', 'compiling', 'streaming'].includes(workload)`). -/
def isHighLoad : Workload → Bool
  | .rendering | .stress | .compiling | .streaming => true
  | _ => false

/-- Source `state.cpu?.shortBoostDuration > 0` (false on a null CPU). -/
def cpuHasBoost : Option Cpu → Bool
  | none => false
  | some c => decide (c.shortBoostDuration > 0)

/-- The per-tick boost-state update at the top of
`calculateSimulationState` (state.js simulation module, lines 843-862);
`lastCpuPower` is the caller's `state.power?.cpu || 0`. -/
def boostStep (cpu : Option Cpu) (w : Workload) (lastCpuPower : ℚ) (b : BoostState)
    (deltaTime : ℚ) : BoostState :=
  if cpuHasBoost cpu ∧ isHighLoad w then
    if ¬b.boostActive ∧ b.boostTimeRemaining = 0 then
      { b with
        boostTimeRemaining := (match cpu with | some c => c.shortBoostDuration | none => 0)
        boostActive := true }
    else if b.boostTimeRemaining > 0 then
      let remaining := max 0 (b.boostTimeRemaining - deltaTime)
      { b with
        boostTimeRemaining := remaining
        boostActive := if remaining = 0 then false else b.boostActive }
    else b
  else if ¬isHighLoad w then
    { currentPower := lastCpuPower, boostTimeRemaining := 0, boostActive := false }
  else b

/-! ## Warnings module (`src/src/scripts/warnings.js`)

Warning `title`/`message` strings are display-only and not modelled;
a warning is its `type`, `severity` and numeric `value`. -/

/-- Warning severity. -/
inductive Severity
  | info | warning | danger
  deriving DecidableEq

/-- Source `WarningType` -/
inductive WarningType
  | psu_load_high | psu_load_critical | psu_transient
  | thermal_throttle | thermal_warning
  | cooling_insufficient | cooling_marginal
  | memory_incompatible | equilibrium_exceeded | boost_ended
  deriving DecidableEq

/-- A generated warning. -/
structure Warning where
  wtype : WarningType
  severity : Severity
  value : ℚ
  deriving DecidableEq

/-- Source `checkPsuLoadWarning(sustainedLoad, psu)` (the PSU is only used in the
message string). -/
def checkPsuLoadWarning (sustainedLoad : ℚ) (_psu : Option Psu) : Option Warning :=
  if sustainedLoad ≥ 95 then
    some { wtype := .psu_load_critical, severity := .danger, value := sustainedLoad }
  else if sustainedLoad ≥ 80 then
    some { wtype := .psu_load_high, severity := .warning, value := sustainedLoad }
  else none

/-- The effective transient limit computed by `checkPsuTransientWarning`
(`psu?.transientResponse || 0.8`, then `100 + (tr - 0.7) * 80`). -/
def psuTransientEffectiveLimit (psu : Option Psu) : ℚ :=
  let transientResponse := match psu with | none => 8/10 | some p => jsOr p.transientResponse (8/10)
  100 + (transientResponse - 7/10) * 80

/-- Source `checkPsuTransientWarning(transientLoad, sustainedLoad, psu)` -/
def checkPsuTransientWarning (transientLoad sustainedLoad : ℚ) (psu : Option Psu) :
    Option Warning :=
  let effectiveLimit := psuTransientEffectiveLimit psu
  if transientLoad ≥ effectiveLimit then
    some { wtype := .psu_transient, severity := .danger, value := transientLoad }
  else if transientLoad ≥ 90 ∧ transientLoad > sustainedLoad + 10 then
    some { wtype := .psu_transient, severity := .warning, value := transientLoad }
  else none

/-- Source `checkThermalWarning(cpuTemp, maxTemp, throttleTemp, isThrottling,
throttlePercent, equilibriumTemp)` -/
def checkThermalWarning (cpuTemp maxTemp : ℚ) (_throttleTemp : ℚ) (isThrottling : Bool)
    (_throttlePercent _equilibriumTemp : ℚ) : Option Warning :=
  if isThrottling then
    some { wtype := .thermal_throttle, severity := .danger, value := cpuTemp }
  else if cpuTemp / maxTemp ≥ 85/100 then
    some { wtype := .thermal_warning, severity := .warning, value := cpuTemp }
  else none

/-- Source `checkEquilibriumWarning(equilibriumTemp, maxTemp, heatGenerated,
coolingCapacity, cooling)` -/
def checkEquilibriumWarning (equilibriumTemp maxTemp : ℚ) (_heatGenerated _coolingCapacity : ℚ)
    (_cooling : Option Cooling) : Option Warning :=
  if equilibriumTemp > maxTemp then
    some { wtype := .equilibrium_exceeded, severity := .danger, value := equilibriumTemp }
  else none

/-- Source `checkCoolingWarning(heatGenerated, coolingCapacity, equilibriumTemp,
maxTemp, cooling)` (`cooling.maxRecommendedTdp && ...` is a falsy guard). -/
def checkCoolingWarning (heatGenerated coolingCapacity equilibriumTemp maxTemp : ℚ)
    (cooling : Option Cooling) : Option Warning :=
  match cooling with
  | none => none
  | some c =>
    let capacityRatio := heatGenerated / coolingCapacity
    if capacityRatio ≥ 1 - 1/10 ∧ equilibriumTemp > maxTemp - 8 then
      some { wtype := .cooling_marginal, severity := .warning, value := heatGenerated }
    else if c.maxRecommendedTdp ≠ 0 ∧ heatGenerated > c.maxRecommendedTdp then
      some { wtype := .cooling_insufficient, severity := .warning, value := heatGenerated }
    else none

/-- Source `checkMemoryCompatibilityWarning(cpu, memory)` -/
def checkMemoryCompatibilityWarning (cpu : Option Cpu) (memory : Option Memory) :
    Option Warning :=
  match cpu, memory with
  | some c, some m =>
    if m.memType ∉ c.supportedMemory then
      some { wtype := .memory_incompatible, severity := .danger, value := 0 }
    else none
  | _, _ => none

/-- The power-result slice `generateWarnings` receives (only its presence
is tested by the source guard). -/
structure PowerTotals where
  sustainedTotal : ℚ
  transientPeak : ℚ
  deriving DecidableEq

/-- The input record of `generateWarnings`. -/
structure WarningInputs where
  power : Option PowerTotals
  thermal : Option ThermalState
  psuInfo : Option PsuResult
  psu : Option Psu
  cooling : Option Cooling
  cpu : Option Cpu
  gpu : Option Gpu
  memory : Option Memory

/-- Source `state.cpu?.maxSafeTemp || 90` -/
def cpuMaxSafeTempOr90 : Option Cpu → ℚ
  | none => 90
  | some c => jsOr c.maxSafeTemp 90

/-- Source `state.cpu?.throttleTemp || 95` -/
def cpuThrottleTempOr95 : Option Cpu → ℚ
  | none => 95
  | some c => jsOr c.throttleTemp 95

/-- Source `thermal.coolingCapacity || cooling?.heatDissipation || 100` -/
def coolingCapacityFallback (thermalCapacity : ℚ) (cooling : Option Cooling) : ℚ :=
  if thermalCapacity ≠ 0 then thermalCapacity
  else match cooling with
    | some c => jsOr c.heatDissipation 100
    | none => 100

/-- Source `generateWarnings(state)` -/
def generateWarnings (i : WarningInputs) : List Warning :=
  match i.power, i.thermal, i.psuInfo with
  | some _, some thermal, some psuInfo =>
    (checkMemoryCompatibilityWarning i.cpu i.memory).toList ++
    (match i.cooling with
     | some _ =>
       (checkEquilibriumWarning thermal.equilibriumTemp (cpuMaxSafeTempOr90 i.cpu)
         thermal.heatGenerated thermal.coolingCapacity i.cooling).toList
     | none => []) ++
    (checkThermalWarning thermal.cpuTemp (cpuMaxSafeTempOr90 i.cpu)
      (cpuThrottleTempOr95 i.cpu) thermal.isThrottling thermal.throttlePercent
      thermal.equilibriumTemp).toList ++
    (checkCoolingWarning thermal.heatGenerated
      (coolingCapacityFallback thermal.coolingCapacity i.cooling)
      thermal.equilibriumTemp (cpuMaxSafeTempOr90 i.cpu) i.cooling).toList ++
    (checkPsuLoadWarning psuInfo.loadPercent i.psu).toList ++
    (checkPsuTransientWarning psuInfo.transientLoad psuInfo.loadPercent i.psu).toList
  | _, _, _ => []

/-! ## Example hardware records (used by witnesses) -/

/-- A concrete CPU record for witnesses. -/
def cpuEx : Cpu :=
  { idlePower := 15, lightLoadPower := 45, gamingPower := 95, renderingPower := 180
    stressPower := 220, shortBoostPower := 240, shortBoostDuration := 8
    maxSafeTemp := 95, throttleTemp := 100, supportedMemory := [.ddr4, .ddr5] }

/-- A concrete GPU record for witnesses. -/
def gpuEx : Gpu :=
  { idleDraw := 12, lightLoadDraw := 40, gamingDraw := 200, renderingDraw := 220
    stressDraw := 280, transientMultiplier := 9/5 }

/-- A concrete PSU record for witnesses (the spec's example efficiency
curve `{0: 0.80, 50: 0.92, 100: 0.87}`). -/
def psuEx : Psu :=
  { wattage := 850, efficiency := [(0, 4/5), (50, 23/25), (100, 87/100)]
    transientResponse := 17/20 }

/-- An empty boost state for witnesses. -/
def boostEx : BoostState :=
  { currentPower := 0, boostTimeRemaining := 0, boostActive := false }

/-- A concrete history sample for witnesses. -/
def histEntryEx : HistEntry := { value := 100, time := 1 }

/-- A concrete store slice for witnesses. -/
def storeEx : StoreState :=
  { historyIndex := -1, isPaused := false, powerHistory := [histEntryEx]
    tempHistory := [histEntryEx], simulatedTime := 2 }

/-! ## Field-access helper lemmas -/

lemma calculateCpuPower_some_target (cpu : Cpu) (w : Workload) (b : BoostState) (t : ℚ) :
    (calculateCpuPower (some cpu) w b t).target =
      if t > 0 then (cpuTargetPower cpu w b).1 * (1 - t / 100)
      else (cpuTargetPower cpu w b).1 := rfl

lemma calculateCpuPower_some_current (cpu : Cpu) (w : Workload) (b : BoostState) (t : ℚ) :
    (calculateCpuPower (some cpu) w b t).current =
      max cpu.idlePower
        (jsOr b.currentPower (calculateCpuPower (some cpu) w b t).target +
          ((calculateCpuPower (some cpu) w b t).target -
            jsOr b.currentPower (calculateCpuPower (some cpu) w b t).target) * (15/100)) := rfl

lemma calculateGpuPower_some_sustained (g : Gpu) (w : Workload) (amb t : ℚ) :
    (calculateGpuPower (some g) w amb t).sustained =
      max g.idleDraw
        (if t > 0 then
          gpuBasePower g w * (1 + max 0 ((amb - 25) * (3/1000))) * (1 - t / 100 * (4/10))
        else gpuBasePower g w * (1 + max 0 ((amb - 25) * (3/1000)))) := rfl

lemma updateThermalState_cpuTemp (prims : MathPrims) (s : ThermalState) (p : ThermalParams) :
    ∃ x, (updateThermalState prims s p).cpuTemp = max s.ambientTemp x := ⟨_, rfl⟩

lemma updateThermalState_ambientTemp (prims : MathPrims) (s : ThermalState)
    (p : ThermalParams) : (updateThermalState prims s p).ambientTemp = s.ambientTemp := rfl

/-! ## Claim theorems -/

/-- C1 (amended).  Ticks re-establish the invariant: for every prior
thermal state (even one with `cpuTemp < ambientTemp`) and all parameters,
the state returned by `updateThermalState` satisfies
`cpuTemp ≥ ambientTemp` (the update clamps the new CPU temperature to
ambient and leaves `ambientTemp` unchanged).  The original claim's further
assertion that ambient-temperature changes also preserve the invariant is
false: see the counterexample. -/
theorem C1_updateThermalState_cpuTemp_ge_ambient (prims : MathPrims) (s : ThermalState)
    (p : ThermalParams) :
    (updateThermalState prims s p).ambientTemp ≤ (updateThermalState prims s p).cpuTemp := by
  obtain ⟨x, hx⟩ := updateThermalState_cpuTemp prims s p
  rw [hx, updateThermalState_ambientTemp]
  exact le_max_left _ _

/-- C1 counterexample: `setAmbientTemp` only rewrites the
`ambientTemp` field, so raising ambient above the current CPU temperature
produces a state with `cpuTemp < ambientTemp`, contradicting the claim
that no operation in the sequence ever does so. -/
theorem C1_setAmbientTemp_counterexample :
    (setAmbientTemp (createThermalState 25) 30).cpuTemp <
      (setAmbientTemp (createThermalState 25) 30).ambientTemp := by
  norm_num [setAmbientTemp, createThermalState]

/-- C5 (confirmed).  For every CPU and GPU record, workload, boost
state, ambient temperature and throttle percent (in particular for the
idle workload), `calculateCpuPower` returns a current draw of at least
the CPU's `idlePower` and `calculateGpuPower` a sustained draw of at
least the GPU's `idleDraw`: both are clamped with `max` against the idle
figure. -/
theorem C5_idle_floor (cpu : Cpu) (gpu : Gpu) (wc wg : Workload) (b : BoostState)
    (ambientTemp throttleCpu throttleGpu : ℚ) :
    cpu.idlePower ≤ (calculateCpuPower (some cpu) wc b throttleCpu).current ∧
    gpu.idleDraw ≤ (calculateGpuPower (some gpu) wg ambientTemp throttleGpu).sustained := by
  constructor
  · rw [calculateCpuPower_some_current]
    exact le_max_left _ _
  · rw [calculateGpuPower_some_sustained]
    exact le_max_left _ _

lemma trimHistory_append_le (l : List HistEntry) (e : HistEntry)
    (h : l.length ≤ MAX_HISTORY) :
    (trimHistory (l ++ [e])).length ≤ MAX_HISTORY := by
  unfold trimHistory
  split
  · simpa using by omega
  · next hnot =>
    simp only [List.length_append, List.length_singleton, gt_iff_lt, not_lt] at hnot ⊢
    omega

lemma trimHistory_append_full (l : List HistEntry) (e : HistEntry)
    (h : l.length = MAX_HISTORY) :
    trimHistory (l ++ [e]) = l.tail ++ [e] := by
  unfold trimHistory
  rw [if_pos (by simp [h, MAX_HISTORY])]
  cases l with
  | nil => simp [MAX_HISTORY] at h
  | cons a t => simp

lemma trimHistory_append_lt (l : List HistEntry) (e : HistEntry)
    (h : l.length < MAX_HISTORY) :
    trimHistory (l ++ [e]) = l ++ [e] := by
  unfold trimHistory
  rw [if_neg]
  simp only [List.length_append, List.length_singleton, gt_iff_lt, not_lt]
  omega

/-- C7 (confirmed).  `addPowerHistory` keeps both history buffers
bounded by `MAX_HISTORY` (300): starting from buffers of length at most
300 the result has length at most 300, and the buffer behaves as a FIFO —
when full, exactly the oldest (head) entry is evicted and the new sample
is appended at the end; when not full, the new sample is simply appended. -/
theorem C7_history_bounded_fifo (s : StoreState) (power temp : ℚ)
    (hp : s.powerHistory.length ≤ MAX_HISTORY) (ht : s.tempHistory.length ≤ MAX_HISTORY) :
    ((addPowerHistory s power temp).powerHistory.length ≤ MAX_HISTORY ∧
     (addPowerHistory s power temp).tempHistory.length ≤ MAX_HISTORY) ∧
    (s.powerHistory.length = MAX_HISTORY →
      (addPowerHistory s power temp).powerHistory =
        s.powerHistory.tail ++ [{ value := power, time := s.simulatedTime }]) ∧
    (s.powerHistory.length < MAX_HISTORY →
      (addPowerHistory s power temp).powerHistory =
        s.powerHistory ++ [{ value := power, time := s.simulatedTime }]) ∧
    (s.tempHistory.length = MAX_HISTORY →
      (addPowerHistory s power temp).tempHistory =
        s.tempHistory.tail ++ [{ value := temp, time := s.simulatedTime }]) ∧
    (s.tempHistory.length < MAX_HISTORY →
      (addPowerHistory s power temp).tempHistory =
        s.tempHistory ++ [{ value := temp, time := s.simulatedTime }]) := by
  unfold addPowerHistory
  exact ⟨⟨trimHistory_append_le _ _ hp, trimHistory_append_le _ _ ht⟩,
    fun h => trimHistory_append_full _ _ h,
    fun h => trimHistory_append_lt _ _ h,
    fun h => trimHistory_append_full _ _ h,
    fun h => trimHistory_append_lt _ _ h⟩

/-- C7 witness: from a one-entry store, appending keeps both buffers
within capacity and appends at the end. -/
theorem C7_history_bounded_fifo_witness :
    storeEx.powerHistory.length ≤ MAX_HISTORY ∧ storeEx.tempHistory.length ≤ MAX_HISTORY ∧
    (addPowerHistory storeEx 120 55).powerHistory.length ≤ MAX_HISTORY ∧
    (addPowerHistory storeEx 120 55).powerHistory =
      storeEx.powerHistory ++ [{ value := 120, time := storeEx.simulatedTime }] := by
  have hp : storeEx.powerHistory.length ≤ MAX_HISTORY := by decide
  have ht : storeEx.tempHistory.length ≤ MAX_HISTORY := by decide
  have h := C7_history_bounded_fifo storeEx 120 55 hp ht
  exact ⟨hp, ht, h.1.1, h.2.2.1 (by decide)⟩

/-- C9 (confirmed).  Under a high-load workload with a CPU whose
`shortBoostDuration` is positive, a boost state that has run down
(`boostTimeRemaining = 0`, `boostActive = false`) is restarted by the very
next per-tick boost update: `boostStep` returns a fresh window with
`boostTimeRemaining = shortBoostDuration` and `boostActive = true`, so
boost windows repeat indefinitely while the workload persists. -/
theorem C9_boost_restart (c : Cpu) (w : Workload) (lastCpuPower : ℚ) (b : BoostState)
    (dt : ℚ) (hw : isHighLoad w = true) (hd : 0 < c.shortBoostDuration)
    (hr : b.boostTimeRemaining = 0) (ha : b.boostActive = false) :
    boostStep (some c) w lastCpuPower b dt =
      { b with boostTimeRemaining := c.shortBoostDuration, boostActive := true } := by
  simp [boostStep, cpuHasBoost, hw, hd, hr, ha]

/-- C9 witness: a run-down boost state restarts on the next step under
the rendering workload. -/
theorem C9_boost_restart_witness :
    isHighLoad .rendering = true ∧ (0:ℚ) < cpuEx.shortBoostDuration ∧
    boostStep (some cpuEx) .rendering 0 boostEx (1/10) =
      { boostEx with boostTimeRemaining := cpuEx.shortBoostDuration, boostActive := true } :=
  ⟨by decide, by norm_num [cpuEx],
   C9_boost_restart cpuEx .rendering 0 boostEx (1/10) (by decide) (by norm_num [cpuEx])
     (by decide) (by decide)⟩

/-- C10 (confirmed).  `setHistoryIndex` pauses and pins: for an index
inside `[0, powerHistory.length)` it stores that index and forces
`isPaused := true` (even at the tip), for any out-of-range index it stores
`-1` (live) and leaves `isPaused` unchanged; in neither case does it ever
set `isPaused` to `false` on a paused store. -/
theorem C10_setHistoryIndex_behavior (s : StoreState) (i : ℤ) :
    (0 ≤ i ∧ i < (s.powerHistory.length : ℤ) →
      (setHistoryIndex s i).historyIndex = i ∧ (setHistoryIndex s i).isPaused = true) ∧
    (¬(0 ≤ i ∧ i < (s.powerHistory.length : ℤ)) →
      (setHistoryIndex s i).historyIndex = -1 ∧
      (setHistoryIndex s i).isPaused = s.isPaused) ∧
    (s.isPaused = true → (setHistoryIndex s i).isPaused = true) := by
  unfold setHistoryIndex
  by_cases h : 0 ≤ i ∧ i < (s.powerHistory.length : ℤ)
  · rw [if_pos h]
    exact ⟨fun _ => ⟨rfl, rfl⟩, fun hn => absurd h hn, fun _ => rfl⟩
  · rw [if_neg h]
    exact ⟨fun hx => absurd hx h, fun _ => ⟨rfl, rfl⟩, fun hx => hx⟩

/-- C10 witness: index 0 into a one-entry history pins and pauses;
index 5 is out of range, goes live and leaves the pause flag alone. -/
theorem C10_setHistoryIndex_behavior_witness :
    ((setHistoryIndex storeEx 0).historyIndex = 0 ∧
      (setHistoryIndex storeEx 0).isPaused = true) ∧
    ((setHistoryIndex storeEx 5).historyIndex = -1 ∧
      (setHistoryIndex storeEx 5).isPaused = storeEx.isPaused) :=
  ⟨(C10_setHistoryIndex_behavior storeEx 0).1 (by decide),
   (C10_setHistoryIndex_behavior storeEx 5).2.1 (by decide)⟩

/-- C6 (confirmed).  With everything else fixed: if the pre-throttle
CPU target power is positive, a larger throttle percent yields a strictly
smaller `calculateCpuPower` target (the target is scaled by
`1 - throttlePercent/100`); and if the GPU's selected base draw is
non-negative, a larger throttle percent never increases the
`calculateGpuPower` sustained draw (scaled by the gentler
`1 - throttlePercent/100 * 0.4` before the idle clamp). -/
theorem C6_throttle_monotonicity (cpu : Cpu) (gpu : Gpu) (w : Workload) (b : BoostState)
    (ambientTemp t1 t2 : ℚ) (h0 : 0 ≤ t1) (h12 : t1 < t2)
    (hcpu : 0 < (cpuTargetPower cpu w b).1) (hgpu : 0 ≤ gpuBasePower gpu w) :
    (calculateCpuPower (some cpu) w b t2).target <
      (calculateCpuPower (some cpu) w b t1).target ∧
    (calculateGpuPower (some gpu) w ambientTemp t2).sustained ≤
      (calculateGpuPower (some gpu) w ambientTemp t1).sustained := by
  have h2 : (0:ℚ) < t2 := lt_of_le_of_lt h0 h12
  have hleak : (0:ℚ) ≤ 1 + max 0 ((ambientTemp - 25) * (3/1000)) := by
    have := le_max_left (0:ℚ) ((ambientTemp - 25) * (3/1000))
    linarith
  have hA : (0:ℚ) ≤ gpuBasePower gpu w * (1 + max 0 ((ambientTemp - 25) * (3/1000))) :=
    mul_nonneg hgpu hleak
  constructor
  · rw [calculateCpuPower_some_target, calculateCpuPower_some_target, if_pos h2]
    by_cases h1 : t1 > 0
    · rw [if_pos h1]
      nlinarith [hcpu]
    · rw [if_neg h1]
      nlinarith [hcpu]
  · rw [calculateGpuPower_some_sustained, calculateGpuPower_some_sustained, if_pos h2]
    by_cases h1 : t1 > 0
    · rw [if_pos h1]
      exact max_le_max le_rfl (by nlinarith [hA])
    · rw [if_neg h1]
      exact max_le_max le_rfl (by nlinarith [hA])

/-- C6 witness: at gaming workload on the example hardware, throttle
50 gives a strictly smaller CPU target than throttle 0 and no larger a
GPU sustained draw. -/
theorem C6_throttle_monotonicity_witness :
    (0:ℚ) ≤ 0 ∧ (0:ℚ) < 50 ∧ 0 < (cpuTargetPower cpuEx .gaming boostEx).1 ∧
    0 ≤ gpuBasePower gpuEx .gaming ∧
    (calculateCpuPower (some cpuEx) .gaming boostEx 50).target <
      (calculateCpuPower (some cpuEx) .gaming boostEx 0).target ∧
    (calculateGpuPower (some gpuEx) .gaming 25 50).sustained ≤
      (calculateGpuPower (some gpuEx) .gaming 25 0).sustained := by
  have h := C6_throttle_monotonicity cpuEx gpuEx .gaming boostEx 25 0 50 (by norm_num)
    (by norm_num) (by norm_num [cpuTargetPower, cpuEx, Workload.cpuLoadType])
    (by norm_num [gpuBasePower, gpuEx, Workload.gpuLoadType])
  refine ⟨by norm_num, by norm_num,
    by norm_num [cpuTargetPower, cpuEx, Workload.cpuLoadType],
    by norm_num [gpuBasePower, gpuEx, Workload.gpuLoadType], h.1, h.2⟩

lemma calculateWallPower_some_transientLimit (p : Psu) (sys tp : ℚ) :
    (calculateWallPower sys tp (some p)).transientLimit =
      100 + (jsOr p.transientResponse (8/10) - 7/10) * 80 := rfl

lemma calculateWallPower_some_transientLoad (p : Psu) (sys tp : ℚ) :
    (calculateWallPower sys tp (some p)).transientLoad = tp / p.wattage * 100 := rfl

lemma calculateWallPower_some_transientStable (p : Psu) (sys tp : ℚ) :
    (calculateWallPower sys tp (some p)).transientStable =
      decide ((calculateWallPower sys tp (some p)).transientLoad <
        (calculateWallPower sys tp (some p)).transientLimit) := rfl

lemma calculateWallPower_some_transientWarning (p : Psu) (sys tp : ℚ) :
    (calculateWallPower sys tp (some p)).transientWarning =
      decide ((calculateWallPower sys tp (some p)).transientLoad >
        (calculateWallPower sys tp (some p)).transientLimit * (85/100)) := rfl

/-- C4 (confirmed, noting that a spec whose stored `transientResponse`
is the falsy `0` falls back to `0.8`).  For every PSU with a non-zero
`transientResponse` `tr`, `calculateWallPower` computes the transient
limit `100 + (tr - 0.7) * 80`, reports `transientStable` exactly when the
transient load percent is strictly below that limit, sets
`transientWarning` exactly when the transient load percent strictly
exceeds 85% of the limit, and the warning generator's danger-severity
transient check (`checkPsuTransientWarning`) fires exactly at the same
limit. -/
theorem C4_transient_stability_limit (p : Psu) (systemPower transientPower : ℚ)
    (htr : p.transientResponse ≠ 0) :
    (calculateWallPower systemPower transientPower (some p)).transientLimit =
      100 + (p.transientResponse - 7/10) * 80 ∧
    ((calculateWallPower systemPower transientPower (some p)).transientStable = true ↔
      (calculateWallPower systemPower transientPower (some p)).transientLoad <
        (calculateWallPower systemPower transientPower (some p)).transientLimit) ∧
    ((calculateWallPower systemPower transientPower (some p)).transientWarning = true ↔
      (calculateWallPower systemPower transientPower (some p)).transientLoad >
        (calculateWallPower systemPower transientPower (some p)).transientLimit * (85/100)) ∧
    psuTransientEffectiveLimit (some p) =
      (calculateWallPower systemPower transientPower (some p)).transientLimit ∧
    (∀ tl sl : ℚ,
      checkPsuTransientWarning tl sl (some p) =
          some { wtype := .psu_transient, severity := .danger, value := tl } ↔
        psuTransientEffectiveLimit (some p) ≤ tl) := by
  have hjs : jsOr p.transientResponse (8/10) = p.transientResponse := if_neg htr
  refine ⟨by rw [calculateWallPower_some_transientLimit, hjs], ?_, ?_, ?_, ?_⟩
  · rw [calculateWallPower_some_transientStable]
    exact decide_eq_true_iff
  · rw [calculateWallPower_some_transientWarning]
    exact decide_eq_true_iff
  · rw [calculateWallPower_some_transientLimit]
    unfold psuTransientEffectiveLimit
    rfl
  · intro tl sl
    unfold checkPsuTransientWarning
    constructor
    · intro hres
      by_contra hlt
      rw [if_neg (by exact fun hge => hlt hge)] at hres
      split at hres
      · exact Severity.noConfusion (congrArg Warning.severity (Option.some.inj hres))
      · exact Option.noConfusion hres
    · intro hge
      rw [if_pos hge]

/-- C4 witness: the example PSU (`transientResponse = 0.85`) gets
limit `112`, with stability/warning flags matching the limit comparisons,
and the warning generator agrees on the limit. -/
theorem C4_transient_stability_limit_witness :
    psuEx.transientResponse ≠ 0 ∧
    (calculateWallPower 700 1100 (some psuEx)).transientLimit =
      100 + (psuEx.transientResponse - 7/10) * 80 ∧
    psuTransientEffectiveLimit (some psuEx) =
      (calculateWallPower 700 1100 (some psuEx)).transientLimit := by
  have h := C4_transient_stability_limit psuEx 700 1100 (by norm_num [psuEx])
  exact ⟨by norm_num [psuEx], h.1, h.2.2.2.1⟩

/-- C8 (confirmed).  Every power-model function is total on null
hardware: with a null CPU/GPU/memory/PSU the respective calculators
return their documented zero/neutral records; and the warning generator
is total with each check independently no-opping on absent inputs — with
all hardware references null, `generateWarnings` reduces to just the
thermal- and PSU-threshold checks (the memory-compatibility, equilibrium
and cooling checks all return nothing when their hardware is missing). -/
theorem C8_null_tolerance :
    (∀ (w : Workload) (b : BoostState) (t : ℚ),
      calculateCpuPower none w b t = { current := 0, target := 0, isBoost := false }) ∧
    (∀ (w : Workload) (a t : ℚ),
      calculateGpuPower none w a t = { sustained := 0, transient := 0 }) ∧
    (∀ w : Workload, calculateMemoryPower none w = { power := 5, heat := 2/100 }) ∧
    (∀ sys tp : ℚ, calculateWallPower sys tp none =
      { wallPower := sys, efficiency := 85/100, heatWaste := sys * (15/100), loadPercent := 0,
        transientLoad := 0, transientStable := true, transientWarning := false,
        transientLimit := 0 }) ∧
    (∀ (pw : PowerTotals) (th : ThermalState) (pr : PsuResult),
      generateWarnings
        { power := some pw, thermal := some th, psuInfo := some pr,
          psu := none, cooling := none, cpu := none, gpu := none, memory := none } =
      (checkThermalWarning th.cpuTemp 90 95 th.isThrottling th.throttlePercent
        th.equilibriumTemp).toList ++
      (checkPsuLoadWarning pr.loadPercent none).toList ++
      (checkPsuTransientWarning pr.transientLoad pr.loadPercent none).toList) ∧
    (∀ m : Option Memory, checkMemoryCompatibilityWarning none m = none) ∧
    (∀ c : Option Cpu, checkMemoryCompatibilityWarning c none = none) ∧
    (∀ hg cc eq mt : ℚ, checkCoolingWarning hg cc eq mt none = none) := by
  refine ⟨fun w b t => rfl, fun w a t => rfl, fun w => rfl, fun sys tp => rfl,
    fun pw th pr => ?_, fun m => ?_, fun c => ?_, fun hg cc eq mt => rfl⟩
  · simp [generateWarnings, checkMemoryCompatibilityWarning, checkCoolingWarning,
      cpuMaxSafeTempOr90, cpuThrottleTempOr95]
  · cases m <;> rfl
  · cases c <;> rfl

lemma updateThrottle_ramp (th q : ℚ) :
    updateThrottle (th + 10) th q = q + (40 - q) * (15/100) := by
  unfold updateThrottle
  rw [if_pos (by linarith : th + 10 > th)]
  simp only []
  rw [show th + 10 - th = (10:ℚ) from by ring]
  norm_num

lemma updateThrottle_decay (th q : ℚ) :
    updateThrottle (th - 5) th q =
      if q > 0 then (if q * (92/100) < 1/2 then 0 else q * (92/100)) else q := by
  unfold updateThrottle
  rw [if_neg (by linarith : ¬th - 5 > th)]
  by_cases hq : q > 0
  · rw [if_pos ⟨by linarith, hq⟩, if_pos hq]
  · rw [if_neg (fun h => hq h.2), if_neg hq]

lemma ramp_iterate_gap (th p0 : ℚ) (n : ℕ) :
    40 - (updateThrottle (th + 10) th)^[n] p0 = (40 - p0) * (85/100)^n := by
  induction n with
  | zero => simp
  | succ n ih =>
    rw [Function.iterate_succ_apply', updateThrottle_ramp, pow_succ]
    linear_combination (85/100) * ih

lemma decay_iterate (th : ℚ) : ∀ (n : ℕ) (q : ℚ), 0 ≤ q →
    (updateThrottle (th - 5) th)^[n + 1] q = 0 ∨
    ((updateThrottle (th - 5) th)^[n + 1] q = q * (92/100) ^ (n + 1) ∧
      1/2 ≤ q * (92/100) ^ (n + 1)) := by
  intro n
  induction n with
  | zero =>
    intro q hq
    rw [Function.iterate_one, updateThrottle_decay]
    by_cases hq0 : q > 0
    · rw [if_pos hq0]
      by_cases hsnap : q * (92/100) < 1/2
      · exact Or.inl (if_pos hsnap)
      · refine Or.inr ⟨?_, ?_⟩
        · rw [if_neg hsnap, pow_one]
        · rw [pow_one]; linarith [not_lt.mp hsnap]
    · rw [if_neg hq0]
      exact Or.inl (by linarith [not_lt.mp hq0])
  | succ n ih =>
    intro q hq
    rw [Function.iterate_succ_apply']
    rcases ih q hq with h | ⟨he, hge⟩
    · rw [h, updateThrottle_decay]
      norm_num
    · rw [he, updateThrottle_decay]
      have hc : q * (92/100) ^ (n + 1) > 0 := by linarith
      rw [if_pos hc]
      by_cases hsnap : q * (92/100) ^ (n + 1) * (92/100) < 1/2
      · exact Or.inl (if_pos hsnap)
      · refine Or.inr ⟨?_, ?_⟩
        · rw [if_neg hsnap, pow_succ]; ring
        · rw [pow_succ]; linarith [not_lt.mp hsnap]

/-- C2 (confirmed).  Modelling "CPU temperature held fixed" by
iterating `updateThrottle` — the throttle step of `updateThermalState` —
at a constant temperature: held 10°C above the effective threshold, from
any starting throttle in `[0, 40]` the throttle is monotonically
non-decreasing, stays at most `min(95, 40) = 40`, and its gap below 40
shrinks by the factor 0.85 each tick (approaching 40 from strictly below
whenever it starts below 40); held 5°C below the threshold (inside the
3°C hysteresis release band), a positive throttle strictly decreases each
tick (it is multiplied by 0.92, or snaps to 0 below 0.5), and from any
start in `[0, 40]` it reaches exactly 0 within 54 ticks. -/
theorem C2_throttle_hysteresis (th p0 : ℚ) (h0 : 0 ≤ p0) (h40 : p0 ≤ 40) :
    (∀ n : ℕ,
      (updateThrottle (th + 10) th)^[n] p0 ≤ (updateThrottle (th + 10) th)^[n + 1] p0 ∧
      (updateThrottle (th + 10) th)^[n] p0 ≤ 40 ∧
      40 - (updateThrottle (th + 10) th)^[n] p0 = (40 - p0) * (85/100) ^ n) ∧
    (p0 < 40 → ∀ n : ℕ, (updateThrottle (th + 10) th)^[n] p0 < 40) ∧
    (∀ q : ℚ, 0 < q →
      updateThrottle (th - 5) th q < q ∧
      (updateThrottle (th - 5) th q = q * (92/100) ∨ updateThrottle (th - 5) th q = 0)) ∧
    (updateThrottle (th - 5) th)^[54] p0 = 0 := by
  have hgap := ramp_iterate_gap th p0
  refine ⟨?_, ?_, ?_, ?_⟩
  · intro n
    have hn := hgap n
    have hn1 := hgap (n + 1)
    have hpow : (0:ℚ) ≤ (85/100) ^ n := pow_nonneg (by norm_num) n
    have hp40 : (0:ℚ) ≤ 40 - p0 := by linarith
    refine ⟨?_, ?_, hn⟩
    · rw [pow_succ] at hn1
      nlinarith [mul_nonneg hp40 hpow]
    · nlinarith [mul_nonneg hp40 hpow]
  · intro hlt n
    have hn := hgap n
    have hpow : (0:ℚ) < (85/100) ^ n := pow_pos (by norm_num) n
    nlinarith [mul_pos (by linarith : (0:ℚ) < 40 - p0) hpow]
  · intro q hq
    rw [updateThrottle_decay, if_pos hq]
    by_cases hsnap : q * (92/100) < 1/2
    · rw [if_pos hsnap]
      exact ⟨hq, Or.inr rfl⟩
    · rw [if_neg hsnap]
      exact ⟨by linarith, Or.inl rfl⟩
  · rcases decay_iterate th 53 p0 h0 with h | ⟨_, hge⟩
    · exact h
    · exfalso
      have hb : p0 * (92/100) ^ (53 + 1) ≤ 40 * (92/100) ^ (53 + 1) := by
        have : (0:ℚ) ≤ (92/100) ^ (53 + 1) := pow_nonneg (by norm_num) _
        nlinarith
      have hnum : (40:ℚ) * (92/100) ^ (53 + 1) < 1/2 := by norm_num
      linarith

/-- C2 witness: starting from zero throttle at threshold 80, the first
ramp tick does not decrease the throttle, and 54 decay ticks return it to
exactly 0. -/
theorem C2_throttle_hysteresis_witness :
    (0:ℚ) ≤ 0 ∧ (0:ℚ) ≤ 40 ∧
    (updateThrottle (80 + 10) 80)^[0] 0 ≤ (updateThrottle (80 + 10) 80)^[0 + 1] 0 ∧
    (updateThrottle (80 - 5) 80)^[54] 0 = 0 :=
  ⟨by norm_num, by norm_num,
   ((C2_throttle_hysteresis 80 0 (by norm_num) (by norm_num)).1 0).1,
   (C2_throttle_hysteresis 80 0 (by norm_num) (by norm_num)).2.2.2⟩

lemma getPsuEfficiency_cons (load : ℚ) (psu : Psu) (first : ℚ × ℚ) (rest : List (ℚ × ℚ))
    (heq : psu.efficiency = first :: rest) :
    getPsuEfficiency load (some psu) =
      if load ≤ first.1 then first.2
      else if (rest.getLastD first).1 ≤ load then (rest.getLastD first).2
      else interpSearch load (first :: rest) := by
  simp only [getPsuEfficiency, heq, List.getLastD_cons]

lemma mem_lt_getLastD :
    ∀ (rest : List (ℚ × ℚ)) (first : ℚ × ℚ),
      (first :: rest).Pairwise (fun x y => x.1 < y.1) →
      ∀ pt ∈ first :: rest,
        pt = rest.getLastD first ∨ pt.1 < (rest.getLastD first).1 := by
  intro rest
  induction rest with
  | nil =>
    intro first _ pt hpt
    rcases List.mem_singleton.mp hpt with rfl
    exact Or.inl rfl
  | cons b t ih =>
    intro first hs pt hpt
    rw [List.getLastD_cons]
    rcases List.mem_cons.mp hpt with rfl | hpt2
    · have hmem : t.getLastD b ∈ b :: t := List.getLastD_mem_cons t b
      have hlt : pt.1 < (t.getLastD b).1 := (List.pairwise_cons.mp hs).1 _ hmem
      exact Or.inr hlt
    · exact ih b (List.pairwise_cons.mp hs).2 pt hpt2

lemma interpSearch_mem (l : List (ℚ × ℚ)) (hs : l.Pairwise (fun x y => x.1 < y.1)) :
    ∀ pt ∈ l, (∃ q ∈ l, pt.1 < q.1) → interpSearch pt.1 l = pt.2 := by
  induction l with
  | nil => intro pt hpt _; cases hpt
  | cons a t ih =>
    intro pt hpt hq
    cases t with
    | nil =>
      rcases hq with ⟨q, hq1, hq2⟩
      rcases List.mem_singleton.mp hpt with rfl
      rcases List.mem_singleton.mp hq1 with rfl
      exact absurd hq2 (lt_irrefl _)
    | cons b t2 =>
      have hab : a.1 < b.1 := (List.pairwise_cons.mp hs).1 b (List.mem_cons_self _ _)
      rcases List.mem_cons.mp hpt with rfl | hpt2
      · show interpSearch pt.1 (pt :: b :: t2) = pt.2
        unfold interpSearch
        rw [if_pos ⟨le_refl _, le_of_lt hab⟩, sub_self, zero_div, mul_zero, add_zero]
      · rcases List.mem_cons.mp hpt2 with rfl | hpt3
        · show interpSearch pt.1 (a :: pt :: t2) = pt.2
          unfold interpSearch
          rw [if_pos ⟨le_of_lt hab, le_refl _⟩,
            div_self (sub_ne_zero.mpr (ne_of_gt hab))]
          ring
        · have hbpt : b.1 < pt.1 :=
            (List.pairwise_cons.mp (List.pairwise_cons.mp hs).2).1 pt hpt3
          show interpSearch pt.1 (a :: b :: t2) = pt.2
          unfold interpSearch
          rw [if_neg (fun hcond => absurd hcond.2 (not_le.mpr hbpt))]
          apply ih (List.pairwise_cons.mp hs).2 pt (List.mem_cons.mpr (Or.inr hpt3))
          rcases hq with ⟨q, hq1, hq2⟩
          rcases List.mem_cons.mp hq1 with rfl | hq3
          · exact absurd hq2 (not_lt.mpr (le_of_lt (lt_trans hab hbpt)))
          · exact ⟨q, hq3, hq2⟩

lemma interpSearch_between (load : ℚ) (a b : ℚ × ℚ) (post : List (ℚ × ℚ))
    (ha : a.1 < load) (hb : load < b.1) :
    ∀ pre : List (ℚ × ℚ),
      (pre ++ a :: b :: post).Pairwise (fun x y => x.1 < y.1) →
      interpSearch load (pre ++ a :: b :: post) =
        a.2 + (b.2 - a.2) * ((load - a.1) / (b.1 - a.1)) := by
  intro pre
  induction pre with
  | nil =>
    intro _
    show interpSearch load (a :: b :: post) = _
    unfold interpSearch
    rw [if_pos ⟨le_of_lt ha, le_of_lt hb⟩]
  | cons x pre2 ih =>
    intro hs
    have htail : (pre2 ++ a :: b :: post).Pairwise (fun p q => p.1 < q.1) :=
      (List.pairwise_cons.mp hs).2
    have hrec := ih htail
    cases pre2 with
    | nil =>
      show interpSearch load (x :: a :: b :: post) = _
      unfold interpSearch
      rw [if_neg (fun hcond => absurd hcond.2 (not_le.mpr ha))]
      exact hrec
    | cons z pre3 =>
      have hza : z.1 < a.1 :=
        (List.pairwise_cons.mp htail).1 a
          (List.mem_append.mpr (Or.inr (List.mem_cons_self _ _)))
      show interpSearch load (x :: z :: (pre3 ++ a :: b :: post)) = _
      unfold interpSearch
      rw [if_neg (fun hcond => absurd hcond.2 (not_le.mpr (lt_trans hza ha)))]
      exact hrec

lemma getPsuEfficiency_at_point (psu : Psu)
    (hs : psu.efficiency.Pairwise (fun x y => x.1 < y.1)) :
    ∀ pt ∈ psu.efficiency, getPsuEfficiency pt.1 (some psu) = pt.2 := by
  intro pt hpt
  rcases hE : psu.efficiency with - | ⟨first, rest⟩
  · rw [hE] at hpt; cases hpt
  · rw [hE] at hpt hs
    rw [getPsuEfficiency_cons pt.1 psu first rest hE]
    rcases List.mem_cons.mp hpt with rfl | hpt2
    · rw [if_pos (le_refl _)]
    · have hfpt : first.1 < pt.1 := (List.pairwise_cons.mp hs).1 pt hpt2
      rw [if_neg (not_le.mpr hfpt)]
      by_cases h2 : (rest.getLastD first).1 ≤ pt.1
      · rw [if_pos h2]
        rcases mem_lt_getLastD rest first hs pt hpt with hEq | hlt
        · rw [← hEq]
        · exact absurd h2 (not_le.mpr hlt)
      · rw [if_neg h2]
        exact interpSearch_mem (first :: rest) hs pt hpt
          ⟨rest.getLastD first, List.getLastD_mem_cons rest first, not_le.mp h2⟩

lemma getPsuEfficiency_interp (psu : Psu)
    (hs : psu.efficiency.Pairwise (fun x y => x.1 < y.1))
    (pre post : List (ℚ × ℚ)) (a b : ℚ × ℚ) (load : ℚ)
    (heq : psu.efficiency = pre ++ a :: b :: post) (ha : a.1 < load) (hb : load < b.1) :
    getPsuEfficiency load (some psu) =
      a.2 + (b.2 - a.2) * ((load - a.1) / (b.1 - a.1)) := by
  rw [heq] at hs
  have hmemb : b ∈ pre ++ a :: b :: post :=
    List.mem_append.mpr (Or.inr (List.mem_cons.mpr (Or.inr (List.mem_cons_self _ _))))
  cases pre with
  | nil =>
    have hE : psu.efficiency = a :: (b :: post) := heq
    rw [getPsuEfficiency_cons load psu a (b :: post) hE]
    rw [if_neg (not_le.mpr ha)]
    have hbL : b.1 ≤ (((b :: post).getLastD a)).1 := by
      rcases mem_lt_getLastD (b :: post) a hs b
        (List.mem_cons.mpr (Or.inr (List.mem_cons_self _ _))) with hEq | hlt
      · rw [← hEq]
      · exact le_of_lt hlt
    rw [if_neg (not_le.mpr (lt_of_lt_of_le hb hbL))]
    exact interpSearch_between load a b post ha hb [] hs
  | cons x pre2 =>
    have hE : psu.efficiency = x :: (pre2 ++ a :: b :: post) := heq
    rw [getPsuEfficiency_cons load psu x (pre2 ++ a :: b :: post) hE]
    have hxa : x.1 < a.1 :=
      (List.pairwise_cons.mp hs).1 a (List.mem_append.mpr (Or.inr (List.mem_cons_self _ _)))
    rw [if_neg (not_le.mpr (lt_trans hxa ha))]
    have hmemb2 : b ∈ x :: (pre2 ++ a :: b :: post) := hmemb
    have hbL : b.1 ≤ (((pre2 ++ a :: b :: post).getLastD x)).1 := by
      rcases mem_lt_getLastD (pre2 ++ a :: b :: post) x hs b hmemb2 with hEq | hlt
      · rw [← hEq]
      · exact le_of_lt hlt
    rw [if_neg (not_le.mpr (lt_of_lt_of_le hb hbL))]
    exact interpSearch_between load a b post ha hb (x :: pre2) hs

/-- C3 (confirmed).  For every PSU whose efficiency curve is strictly
sorted by load percent (as produced by the source's numeric key sort):
`getPsuEfficiency` returns the stored efficiency exactly at every defined
point; strictly between two adjacent defined points it returns the
piecewise-linear interpolant, which lies strictly between the two
efficiencies whenever they differ; at or below the lowest defined point
it returns the lowest point's efficiency, and at or above the highest
defined point the highest point's efficiency (clamping). -/
theorem C3_psu_efficiency_interpolation (psu : Psu)
    (hs : psu.efficiency.Pairwise (fun x y => x.1 < y.1)) :
    (∀ pt ∈ psu.efficiency, getPsuEfficiency pt.1 (some psu) = pt.2) ∧
    (∀ (pre post : List (ℚ × ℚ)) (a b : ℚ × ℚ) (load : ℚ),
      psu.efficiency = pre ++ a :: b :: post → a.1 < load → load < b.1 →
      getPsuEfficiency load (some psu) =
        a.2 + (b.2 - a.2) * ((load - a.1) / (b.1 - a.1)) ∧
      (a.2 ≠ b.2 →
        min a.2 b.2 < getPsuEfficiency load (some psu) ∧
        getPsuEfficiency load (some psu) < max a.2 b.2)) ∧
    (∀ (first : ℚ × ℚ) (rest : List (ℚ × ℚ)) (load : ℚ),
      psu.efficiency = first :: rest → load ≤ first.1 →
      getPsuEfficiency load (some psu) = first.2) ∧
    (∀ (first : ℚ × ℚ) (rest : List (ℚ × ℚ)) (load : ℚ),
      psu.efficiency = first :: rest → (rest.getLastD first).1 ≤ load →
      getPsuEfficiency load (some psu) = (rest.getLastD first).2) := by
  refine ⟨getPsuEfficiency_at_point psu hs, ?_, ?_, ?_⟩
  · intro pre post a b load heq ha hb
    have hval := getPsuEfficiency_interp psu hs pre post a b load heq ha hb
    refine ⟨hval, fun hne => ?_⟩
    have hsorted : (pre ++ a :: b :: post).Pairwise (fun x y => x.1 < y.1) := heq ▸ hs
    have hab : a.1 < b.1 := lt_trans ha hb
    have hd : (0:ℚ) < b.1 - a.1 := by linarith
    have ht0 : (0:ℚ) < (load - a.1) / (b.1 - a.1) := div_pos (by linarith) hd
    have ht1 : (load - a.1) / (b.1 - a.1) < 1 := (div_lt_one hd).mpr (by linarith)
    rcases lt_trichotomy a.2 b.2 with hlt | hEq | hgt
    · rw [min_eq_left (le_of_lt hlt), max_eq_right (le_of_lt hlt), hval]
      constructor <;> nlinarith
    · exact absurd hEq hne
    · rw [min_eq_right (le_of_lt hgt), max_eq_left (le_of_lt hgt), hval]
      constructor <;> nlinarith
  · intro first rest load heq hle
    rw [getPsuEfficiency_cons load psu first rest heq, if_pos hle]
  · intro first rest load heq hge
    rw [getPsuEfficiency_cons load psu first rest heq]
    by_cases h1 : load ≤ first.1
    · rw [if_pos h1]
      rw [heq] at hs
      rcases mem_lt_getLastD rest first hs first (List.mem_cons_self _ _) with hEq | hlt
      · rw [← hEq]
      · exact absurd hge (not_le.mpr (lt_of_le_of_lt h1 hlt))
    · rw [if_neg h1, if_pos hge]

/-- C3 witness: on the spec's example curve `{0:0.80, 50:0.92,
100:0.87}`, the efficiency at load 50 is exactly 0.92, at load 25 it lies
strictly between 0.80 and 0.92, and at load 150 it clamps to 0.87. -/
theorem C3_psu_efficiency_interpolation_witness :
    getPsuEfficiency 50 (some psuEx) = 23/25 ∧
    (4/5 : ℚ) < getPsuEfficiency 25 (some psuEx) ∧
    getPsuEfficiency 25 (some psuEx) < 23/25 ∧
    getPsuEfficiency 150 (some psuEx) = 87/100 := by
  have hs : psuEx.efficiency.Pairwise (fun x y => x.1 < y.1) := by
    norm_num [psuEx, List.pairwise_cons]
  have h := C3_psu_efficiency_interpolation psuEx hs
  refine ⟨?_, ?_, ?_, ?_⟩
  · exact h.1 (50, 23/25) (by norm_num [psuEx])
  · have hbet := ((h.2.1 [] [(100, 87/100)] (0, 4/5) (50, 23/25) 25 rfl (by norm_num)
      (by norm_num)).2 (by norm_num))
    have := hbet.1
    rwa [show min ((0:ℚ), (4:ℚ)/5).2 ((50:ℚ), (23:ℚ)/25).2 = 4/5 from by norm_num] at this
  · have hbet := ((h.2.1 [] [(100, 87/100)] (0, 4/5) (50, 23/25) 25 rfl (by norm_num)
      (by norm_num)).2 (by norm_num))
    have := hbet.2
    rwa [show max ((0:ℚ), (4:ℚ)/5).2 ((50:ℚ), (23:ℚ)/25).2 = 23/25 from by norm_num] at this
  · have := h.2.2.2 (0, 4/5) [(50, 23/25), (100, 87/100)] 150 rfl (by decide)
    rwa [show (([(50, 23/25), (100, 87/100)] : List (ℚ × ℚ)).getLastD (0, 4/5)) =
      (100, 87/100) from rfl] at this

end FluxState
